import Mathlib

/-!
Verification of the interactive CSV viewer (`csvPlot.py`).

The file shallowly embeds the viewer's interaction core: the loaded table
(`CsvData`), the mutable view/drag/slider state (`PlotState`), and the five
event handlers (`on_press`, `on_motion`, `on_release`, `on_scroll` via
`update_view`, `on_hover`), plus the load-time chart construction
(`plot_csv_data`, `buildChart`).

Modelling conventions:
- numeric data values and pointer coordinates are rationals (ℚ); Python ints
  are ℤ / ℕ;
- a handler that can raise an uncaught exception (out-of-range indexing,
  arithmetic on a missing coordinate) returns `Option`, with `none` standing
  for the raised exception;
- `iloc` models pandas positional indexing, including negative positions
  counting from the end;
- the matplotlib slider is modelled by its value and its `valmax` attribute;
  `slider_set_val` triggers the registered `on_changed` observer
  (`on_scroll` -> `update_view`) exactly as `Slider.set_val` does;
- matplotlib's `line.contains(event)` hit test is pixel geometry performed by
  the rendering surface; the hover handler receives its outcome as an input
  (`hits`: for each plotted line in declaration order, the first contained
  point index, if any).
-/

/-- The loaded table: X column, the Y series in declaration order
(column name paired with its values), and the X-axis label
(the first column's name). Mirrors `x_data`, `y_columns`/`df[col]`,
`x_label` in `plot_csv_data`. -/
structure CsvData where
  x : List ℚ
  cols : List (String × List ℚ)
  x_label : String

/-- The closed-over mutable state of `plot_csv_data` together with the
axis/slider/annot state the handlers write: `window_size`, `current_pos`,
`is_dragging`, `start_x`, `selection_rect` (x-origin and width of the drawn
rectangle, `none` when absent), the axes X limits, the slider's `valmax`
attribute and current value, and the hover annot's visibility and text. -/
structure PlotState where
  window_size : ℤ
  current_pos : ℤ
  is_dragging : Bool
  start_x : Option ℚ
  selection_rect : Option (ℚ × ℚ)
  xlim : ℚ × ℚ
  slider_valmax : ℤ
  slider_val : ℤ
  annot_visible : Bool
  annot_text : String
  annot_xy : ℚ × ℚ
  deriving DecidableEq

/-- A pointer event: the mouse button (1 = left, 3 = right), whether
`event.inaxes` is the plot axes, and `event.xdata` (the data-space X
coordinate, `None` outside the data transform). -/
structure Event where
  button : ℕ
  inaxes : Bool
  xdata : Option ℚ
  deriving DecidableEq

/-- pandas positional indexing `s.iloc[i]` on a column: non-negative
positions index from the front, negative positions from the back, and an
out-of-range position raises (here: `none`). -/
def iloc (l : List ℚ) (i : ℤ) : Option ℚ :=
  if 0 ≤ i then l.get? i.toNat
  else if 0 ≤ (l.length : ℤ) + i then l.get? ((l.length : ℤ) + i).toNat
  else none

/-- Helper for `argminAbs`: returns `some (j, m)` where `j` is the index of
the first element of `l` minimising `|a - t|` and `m` that minimum, or
`none` on the empty list. The head is preferred on ties (`≤`), matching
numpy/pandas `argmin`, which returns the first occurrence of the minimum. -/
def argminAux (t : ℚ) : List ℚ → Option (ℕ × ℚ)
  | [] => none
  | a :: l =>
    match argminAux t l with
    | none => some (0, |a - t|)
    | some (j, m) => if |a - t| ≤ m then some (0, |a - t|) else some (j + 1, m)

/-- `(x_data - t).abs().argmin()`: index of the data point whose X value is
nearest to `t` by absolute distance, first match on ties (0 on an empty
column, where pandas would raise; the handlers only use it with `n ≥ 1`). -/
def argminAbs (x : List ℚ) (t : ℚ) : ℕ :=
  ((argminAux t x).map Prod.fst).getD 0

/-- `update_view(pos)`: records the integer scroll position, computes the
window `[start_idx, end_idx]` with the end clamped to the last point (the
start is used as-is), and sets the X limits to the data values at those
indices. `none` models the `IndexError` pandas raises when the unclamped
start position is out of range. -/
def update_view (d : CsvData) (s : PlotState) (pos : ℤ) : Option PlotState :=
  let n : ℤ := d.x.length
  let start_idx : ℤ := pos
  let end_idx : ℤ := min (pos + s.window_size - 1) (n - 1)
  match iloc d.x start_idx, iloc d.x end_idx with
  | some x_left, some x_right =>
    some { s with current_pos := pos, xlim := (x_left, x_right) }
  | _, _ => none

/-- `Slider.set_val(v)`: stores the value and fires the `on_changed`
observer, which is `on_scroll` and hence `update_view(v)`. -/
def slider_set_val (d : CsvData) (s : PlotState) (v : ℤ) : Option PlotState :=
  update_view d { s with slider_val := v } v

/-- `on_scroll(val)`: the slider observer just forwards to `update_view`. -/
def on_scroll (d : CsvData) (s : PlotState) (val : ℤ) : Option PlotState :=
  update_view d s val

/-- `on_press(event)`: ignore events outside the axes; on right click
(button 3) reset `window_size` to `n`, `current_pos` to 0, recompute the
slider's `valmax`, drive the slider to 0 (which fires `update_view(0)`), and
finally set the X limits to the full data range `(x_min, x_max)`; on left
click (button 1) begin a drag: record the anchor `start_x`, raise
`is_dragging`, and remove any stale selection rectangle. -/
def on_press (d : CsvData) (s : PlotState) (ev : Event) : Option PlotState :=
  if ¬ ev.inaxes then some s
  else if ev.button = 3 then
    let n : ℤ := d.x.length
    let s1 : PlotState :=
      { s with window_size := n, current_pos := 0,
               slider_valmax := max 0 (n - n) }
    match slider_set_val d s1 0 with
    | none => none
    | some s2 =>
      match d.x.min?, d.x.max? with
      | some lo, some hi => some { s2 with xlim := (lo, hi) }
      | _, _ => none
  else if ev.button = 1 then
    some { s with start_x := ev.xdata, is_dragging := true,
                  selection_rect := none }
  else some s

/-- `on_motion(event)`: while a drag is active with the pointer inside the
axes, redraw the preview rectangle spanning from `min(start_x, current_x)`
with width `|current_x - start_x|`; no view mutation. `none` models the
`TypeError` that `min(start_x, None)` would raise if the event carried no
X coordinate. -/
def on_motion (s : PlotState) (ev : Event) : Option PlotState :=
  if s.is_dragging ∧ ev.inaxes ∧ s.start_x ≠ none then
    match s.start_x, ev.xdata with
    | some sx, some cx =>
      some { s with selection_rect := some (min sx cx, |cx - sx|) }
    | _, _ => none
  else some s

/-- `on_release(event)`: a release that does not end an in-axes drag only
lowers `is_dragging`. Otherwise the drag ends: the selection rectangle is
removed, the nearest data-point indices to the two drag endpoints are looked
up, and if they span at least two points the zoom is committed — new
`window_size` and `current_pos`, slider `valmax` update, slider value
clamped into the new range (firing `update_view`), and X limits set to the
selected points; a narrower selection is discarded. The anchor is cleared
at the end of the main path only. -/
def on_release (d : CsvData) (s : PlotState) (ev : Event) : Option PlotState :=
  match s.start_x, s.is_dragging, ev.inaxes with
  | some sx, true, true =>
    let s1 : PlotState := { s with is_dragging := false }
    match ev.xdata with
    | none => some s1
    | some end_x =>
      let s2 : PlotState := { s1 with selection_rect := none }
      let x_left := min sx end_x
      let x_right := max sx end_x
      let left_idx : ℤ := argminAbs d.x x_left
      let right_idx : ℤ := argminAbs d.x x_right
      if 1 ≤ right_idx - left_idx then
        let n : ℤ := d.x.length
        let ws : ℤ := right_idx - left_idx + 1
        let s3 : PlotState :=
          { s2 with window_size := ws, current_pos := left_idx,
                    slider_valmax := max 0 (n - ws) }
        match slider_set_val d s3 (min left_idx s3.slider_valmax) with
        | none => none
        | some s4 =>
          match iloc d.x left_idx, iloc d.x right_idx with
          | some xl, some xr =>
            some { s4 with xlim := (xl, xr), start_x := none }
          | _, _ => none
      else
        some { s2 with start_x := none }
  | _, _, _ => some { s with is_dragging := false }

/-- Drop trailing zero digits (the `%g` format suppresses them). -/
def stripZeros (ds : List Char) : List Char :=
  (ds.reverse.dropWhile (fun c => c = '0')).reverse

/-- Smallest `k` with `n * 10^k ≥ d`, found by fuelled search (the fuel is
always sufficient at the call site since `10^d ≥ d`). -/
def ksearch : ℕ → ℕ → ℕ → ℕ
  | 0, _, _ => 0
  | fuel + 1, n, d => if d ≤ n then 0 else ksearch fuel (10 * n) d + 1

/-- Decimal exponent of a positive rational: the unique `e` with
`10^e ≤ a < 10^(e+1)`, computed from digit counts. -/
def decExp (a : ℚ) : ℤ :=
  if 1 ≤ a then ((Nat.repr (⌊a⌋).toNat).length : ℤ) - 1
  else -(ksearch a.den a.num.natAbs a.den : ℤ)

/-- Fixed-point rendering of the 4 significant digits `ds` of a value with
decimal exponent `e` (used when `-4 ≤ e < 4`): place the decimal point after
`e + 1` leading digits, or prefix `0.` and `-e-1` zeros, stripping trailing
zeros and a bare trailing point. -/
def fixedOfDigits (ds : List Char) (e : ℤ) : String :=
  if 0 ≤ e then
    let ip := ds.take (e.toNat + 1)
    let fp := stripZeros (ds.drop (e.toNat + 1))
    if fp.isEmpty then String.mk ip else String.mk ip ++ "." ++ String.mk fp
  else
    String.mk ('0' :: '.' :: (List.replicate (e.natAbs - 1) '0' ++ stripZeros ds))

/-- Scientific rendering `d.ddde±XX` of the 4 significant digits `ds` with
decimal exponent `e` (used when `e < -4` or `e ≥ 4`). -/
def sciOfDigits (ds : List Char) (e : ℤ) : String :=
  let mant :=
    match ds with
    | [] => "0"
    | c :: rest =>
      let r := stripZeros rest
      if r.isEmpty then String.mk [c] else String.mk [c] ++ "." ++ String.mk r
  let sgn := if 0 ≤ e then "+" else "-"
  let ea := e.natAbs
  let es := if ea < 10 then "0" ++ Nat.repr ea else Nat.repr ea
  mant ++ "e" ++ sgn ++ es

/-- The `:.4g` format applied to an exact rational: round to 4 significant
digits and render in fixed or scientific style as `%.4g` does. (The C
library rounds the tie-breaking case half-to-even on the binary double; on
exact halves this model rounds half-up, a case no claim touches.) -/
def fmt4g (q : ℚ) : String :=
  if q = 0 then "0"
  else
    let a := |q|
    let e := decExp a
    let m := round (a * (10 : ℚ) ^ (3 - e))
    let me : ℤ × ℤ := if m = 10000 then (1000, e + 1) else (m, e)
    let ds := (Nat.repr me.1.toNat).toList
    let body :=
      if -4 ≤ me.2 ∧ me.2 < 4 then fixedOfDigits ds me.2 else sciOfDigits ds me.2
    if q < 0 then "-" ++ body else body

/-- The hover annot text
`f"{col_name}\n{x_label}: {x_val:.4g}\nY: {y_val:.4g}"`. -/
def annotText (d : CsvData) (name : String) (x_val y_val : ℚ) : String :=
  name ++ "\n" ++ d.x_label ++ ": " ++ fmt4g x_val ++ "\nY: " ++ fmt4g y_val

/-- A motion event as seen by the hover handler: whether the pointer is in
the axes, and the outcome of `line.contains(event)` for each plotted line in
declaration order — `some i` when the line reports containment with first
hit-point index `i` (`ind["ind"][0]`), `none` otherwise. -/
structure HoverEvent where
  inaxes : Bool
  hits : List (Option ℕ)

/-- The `for` loop of `on_hover` over `zip(lines, y_columns)`: the first
line reporting containment wins — the annot is anchored at its hit point,
filled with `annotText` and made visible; if no line matches, the annot is
hidden. `none` models an out-of-range hit index (never produced by the
rendering surface). -/
def hoverLoop (d : CsvData) (s : PlotState) :
    List ((String × List ℚ) × Option ℕ) → Option PlotState
  | [] => some { s with annot_visible := false }
  | (c, hit) :: rest =>
    match hit with
    | none => hoverLoop d s rest
    | some index =>
      match d.x.get? index, c.2.get? index with
      | some x_val, some y_val =>
        some { s with annot_xy := (x_val, y_val),
                      annot_text := annotText d c.1 x_val y_val,
                      annot_visible := true }
      | _, _ => none

/-- `on_hover(event)`: outside the axes or while a drag is active the annot
is hidden; otherwise the first matching line in declaration order is
reported. -/
def on_hover (d : CsvData) (s : PlotState) (ev : HoverEvent) : Option PlotState :=
  if ¬ ev.inaxes ∨ s.is_dragging then some { s with annot_visible := false }
  else hoverLoop d s (d.cols.zip ev.hits)

/-- `initial_window = min(50, n_points)`: show about 50 points initially,
or all of them when fewer. -/
def initial_window (n : ℕ) : ℕ := min 50 n

/-- `initial_xlim = (x_data.iloc[0], x_data.iloc[min(window_size-1, n_points-1)])`
with `window_size = initial_window`; fails (raises) on an empty column. -/
def initial_xlim (d : CsvData) : Option (ℚ × ℚ) := do
  let n := d.x.length
  let window_size := initial_window n
  let xl ← d.x.get? 0
  let xr ← d.x.get? (min (window_size - 1) (n - 1))
  pure (xl, xr)

/-- The X tick index computation: `range(0, n_points, spacing)`, then the
last data point's index is appended when the last generated index is not
already `n_points - 1`. `none` models the two raising cases: `range` with a
zero step (`ValueError`, modelled by the empty range) and `tick_indices[-1]`
on an empty list (`IndexError`). -/
def tickIndices (n spacing : ℕ) : Option (List ℕ) :=
  let t := List.range' 0 ((n + spacing - 1) / spacing) spacing
  match t.getLast? with
  | none => none
  | some last => some (if last ≠ n - 1 then t ++ [n - 1] else t)

/-- `all_tick_positions = [x_data.iloc[i] for i in tick_indices]`. -/
def tickPositions (d : CsvData) (spacing : ℕ) : Option (List ℚ) :=
  (tickIndices d.x.length spacing).bind (fun t => t.mapM (fun i => d.x.get? i))

/-- Everything the static chart setup of `plot_csv_data` hands to the
rendering surface before `plt.show()`: the plotted data, the padded Y
limits, the X ticks with their `:.4g` labels, the initial X limits, and the
initial interaction state (scroll 0, no drag, slider `[0, max_scroll]` at 0,
annot hidden at `(0, 0)` with empty text). -/
structure ChartSpec where
  x : List ℚ
  series : List (String × List ℚ)
  x_label : String
  ylim : ℚ × ℚ
  ticks : List ℚ
  tickLabels : List String
  init_xlim : ℚ × ℚ
  init : PlotState

/-- The chart construction of `plot_csv_data` after a successful read and
column check (source lines 26-109): Y bounds with 5% padding, X ticks,
initial window and slider. pandas `min`/`max` on an empty frame yield NaN
without raising; every zero-row run still fails at the tick computation or
at `iloc[0]`, so an Option failure here coincides with a Python exception
reaching the generic handler. -/
def buildChart (d : CsvData) (x_tick_spacing : ℕ) : Option ChartSpec := do
  let n := d.x.length
  let y_min ← (d.cols.map Prod.snd).flatten.min?
  let y_max ← (d.cols.map Prod.snd).flatten.max?
  let y_range := y_max - y_min
  let ylim := (y_min - 5 / 100 * y_range, y_max + 5 / 100 * y_range)
  let tidx ← tickIndices n x_tick_spacing
  let ticks ← tidx.mapM (fun i => d.x.get? i)
  let labels := ticks.map fmt4g
  let xw ← initial_xlim d
  let max_scroll : ℤ := max 0 ((n : ℤ) - initial_window n)
  pure { x := d.x, series := d.cols, x_label := d.x_label, ylim := ylim,
         ticks := ticks, tickLabels := labels, init_xlim := xw,
         init := { window_size := initial_window n, current_pos := 0,
                   is_dragging := false, start_x := none,
                   selection_rect := none, xlim := xw,
                   slider_valmax := max_scroll, slider_val := 0,
                   annot_visible := false, annot_text := "",
                   annot_xy := (0, 0) } }

/-- A raw parsed table: the columns of the dataframe in order, each a name
with its values (no shape constraint yet). -/
structure DataFrame where
  columns : List (String × List ℚ)

/-- The outcome of `pd.read_csv`, as dispatched by the `try`/`except` of
`plot_csv_data`: the file may be missing (`FileNotFoundError`), empty
(`EmptyDataError`), malformed (any other parse exception, with its message),
or successfully parsed. -/
inductive ReadCsvResult where
  | fileNotFound
  | emptyData
  | parseErr (msg : String)
  | table (df : DataFrame)

/-- What the process does: print a one-line diagnostic and exit with a
status code, or put up the chart. -/
inductive PlotOutcome where
  | exited (diag : String) (code : ℕ)
  | shown (chart : ChartSpec)

/-- `plot_csv_data(csv_file, ...)`: dispatches the read outcome exactly as
the `try`/`except` blocks do — `FileNotFoundError`, `EmptyDataError` and the
generic handler each print one line and `sys.exit(1)`; a parsed table with
fewer than 2 columns prints one line and `sys.exit(1)` (a `SystemExit` is
not caught by `except Exception`); otherwise the chart is built, with any
exception during the build landing in the generic handler. (The original
messages quote the file name; the quote characters are elided here, and the
generic handler interpolates the exception text.) -/
def plot_csv_data (csv_file : String) (res : ReadCsvResult)
    (x_tick_spacing : ℕ) : PlotOutcome :=
  match res with
  | .fileNotFound => .exited ("Error: File " ++ csv_file ++ " not found") 1
  | .emptyData => .exited ("Error: File " ++ csv_file ++ " is empty") 1
  | .parseErr msg => .exited ("Error reading CSV file: " ++ msg) 1
  | .table df =>
    if df.columns.length < 2 then
      .exited "Error: CSV file must have at least 2 columns" 1
    else
      match df.columns with
      | (xn, xc) :: rest =>
        let d : CsvData := { x := xc, cols := rest, x_label := xn }
        match buildChart d x_tick_spacing with
        | none => .exited ("Error reading CSV file: " ++ "list index out of range") 1
        | some c => .shown c
      | [] => .exited "Error: CSV file must have at least 2 columns" 1

/-- Modelled from the spec: the "padded full-data bounds" of section 4.3,
`bounds ± 5%` of the X range — the view the spec says a reset restores.
(The source has no X padding; this definition exists to compare the spec's
words with the code's reset behaviour.) -/
def specPaddedBounds (d : CsvData) : Option (ℚ × ℚ) := do
  let lo ← d.x.min?
  let hi ← d.x.max?
  pure (lo - 5 / 100 * (hi - lo), hi + 5 / 100 * (hi - lo))

theorem iloc_ofNat (l : List ℚ) (k : ℕ) : iloc l (k : ℤ) = l.get? k := by
  simp [iloc]

theorem iloc_isSome_of_lt (l : List ℚ) (i : ℤ) (h0 : 0 ≤ i)
    (h : i < (l.length : ℤ)) : ∃ v, iloc l i = some v := by
  obtain ⟨k, rfl⟩ := Int.eq_ofNat_of_zero_le h0
  rw [iloc_ofNat]
  have hk : k < l.length := by exact_mod_cast h
  exact ⟨l.get ⟨k, hk⟩, List.get?_eq_get hk⟩

theorem argminAux_eq_none_iff (t : ℚ) (l : List ℚ) :
    argminAux t l = none ↔ l = [] := by
  cases l with
  | nil => simp [argminAux]
  | cons a l =>
    simp only [argminAux]
    cases h : argminAux t l with
    | none => simp
    | some p =>
      obtain ⟨j, m⟩ := p
      by_cases hle : |a - t| ≤ m <;> simp [hle]

theorem argminAux_spec (t : ℚ) (l : List ℚ) (j : ℕ) (m : ℚ)
    (h : argminAux t l = some (j, m)) :
    j < l.length ∧
    (∃ v, l.get? j = some v ∧ |v - t| = m) ∧
    (∀ i v, l.get? i = some v → m ≤ |v - t|) ∧
    (∀ i v, i < j → l.get? i = some v → m < |v - t|) := by
  induction l generalizing j m with
  | nil => simp [argminAux] at h
  | cons a l ih =>
    simp only [argminAux] at h
    cases hrec : argminAux t l with
    | none =>
      rw [hrec] at h
      have h' : (some (0, |a - t|) : Option (ℕ × ℚ)) = some (j, m) := h
      simp only [Option.some.injEq, Prod.mk.injEq] at h'
      obtain ⟨rfl, rfl⟩ := h'
      have hl : l = [] := (argminAux_eq_none_iff t l).mp hrec
      subst hl
      refine ⟨by simp, ⟨a, by simp⟩, ?_, by omega⟩
      intro i v hv
      cases i with
      | zero => simp at hv; subst hv; rfl
      | succ i => simp at hv
    | some p =>
      obtain ⟨j', m'⟩ := p
      rw [hrec] at h
      have h' : (if |a - t| ≤ m' then some (0, |a - t|)
          else some (j' + 1, m')) = some (j, m) := h
      obtain ⟨hj'len, ⟨v', hv', hvm'⟩, hall', hfirst'⟩ := ih j' m' hrec
      by_cases hle : |a - t| ≤ m'
      · rw [if_pos hle] at h'
        simp only [Option.some.injEq, Prod.mk.injEq] at h'
        obtain ⟨rfl, rfl⟩ := h'
        refine ⟨by simp, ⟨a, by simp⟩, ?_, by omega⟩
        intro i v hv
        cases i with
        | zero => simp at hv; subst hv; rfl
        | succ i =>
          simp only [List.get?_cons_succ] at hv
          exact le_trans hle (hall' i v hv)
      · rw [if_neg hle] at h'
        simp only [Option.some.injEq, Prod.mk.injEq] at h'
        obtain ⟨rfl, rfl⟩ := h'
        push_neg at hle
        refine ⟨by simpa using hj'len, ⟨v', by simpa using hv', hvm'⟩, ?_, ?_⟩
        · intro i v hv
          cases i with
          | zero => simp at hv; subst hv; exact le_of_lt hle
          | succ i =>
            simp only [List.get?_cons_succ] at hv
            exact hall' i v hv
        · intro i v hi hv
          cases i with
          | zero => simp at hv; subst hv; exact hle
          | succ i =>
            simp only [List.get?_cons_succ] at hv
            exact hfirst' i v (by omega) hv

theorem argminAbs_spec (x : List ℚ) (t : ℚ) (hx : x ≠ []) :
    argminAbs x t < x.length ∧
    ∃ v, x.get? (argminAbs x t) = some v ∧
      (∀ i w, x.get? i = some w → |v - t| ≤ |w - t|) ∧
      (∀ i w, i < argminAbs x t → x.get? i = some w → |v - t| < |w - t|) := by
  cases h : argminAux t x with
  | none => exact absurd ((argminAux_eq_none_iff t x).mp h) hx
  | some p =>
    obtain ⟨j, m⟩ := p
    have hj : argminAbs x t = j := by simp [argminAbs, h]
    obtain ⟨hlen, ⟨v, hv, hvm⟩, hall, hfirst⟩ := argminAux_spec t x j m h
    rw [hj]
    refine ⟨hlen, v, hv, ?_, ?_⟩
    · intro i w hw
      rw [hvm]; exact hall i w hw
    · intro i w hi hw
      rw [hvm]; exact hfirst i w hi hw

theorem argminAbs_lt_length (x : List ℚ) (t : ℚ) (hx : x ≠ []) :
    argminAbs x t < x.length :=
  (argminAbs_spec x t hx).1

/-- C3: for every valid `(start, size)` — `0 ≤ start`, `1 ≤ size`,
`start + size - 1 < n` — updating the view by indices sets the X limits to
`x[start]` and `x[start + size - 1]`, and an immediately repeated identical
call returns the same window unchanged. -/
theorem set_by_indices_bounds_and_idempotent
    (d : CsvData) (s : PlotState) (start size : ℕ)
    (hsz : 1 ≤ size) (hval : start + size ≤ d.x.length)
    (hws : s.window_size = size) :
    ∃ s', update_view d s (start : ℤ) = some s' ∧
      d.x.get? start = some s'.xlim.1 ∧
      d.x.get? (start + size - 1) = some s'.xlim.2 ∧
      update_view d s' (start : ℤ) = some s' := by
  have hs : start < d.x.length := by omega
  have hk : start + size - 1 < d.x.length := by omega
  have hmin : min ((start : ℤ) + s.window_size - 1) ((d.x.length : ℤ) - 1)
      = ((start + size - 1 : ℕ) : ℤ) := by
    rw [hws, min_eq_left (by omega)]
    omega
  refine ⟨{ s with current_pos := (start : ℤ), xlim := (d.x.get ⟨start, hs⟩, d.x.get ⟨start + size - 1, hk⟩) },
          ?_, List.get?_eq_get hs, List.get?_eq_get hk, ?_⟩
  · unfold update_view
    dsimp only
    rw [hmin, iloc_ofNat, iloc_ofNat, List.get?_eq_get hs, List.get?_eq_get hk]
  · unfold update_view
    dsimp only
    rw [hmin, iloc_ofNat, iloc_ofNat, List.get?_eq_get hs, List.get?_eq_get hk]

theorem update_view_some (d : CsvData) (s : PlotState) (pos : ℤ) (a b : ℚ)
    (ha : iloc d.x pos = some a)
    (hb : iloc d.x (min (pos + s.window_size - 1) ((d.x.length : ℤ) - 1)) = some b) :
    update_view d s pos = some { s with current_pos := pos, xlim := (a, b) } := by
  unfold update_view
  dsimp only
  rw [ha, hb]

theorem on_release_commit_run
    (d : CsvData) (s : PlotState) (ev : Event) (sx ex : ℚ) (L R : ℕ)
    (hdrag : s.is_dragging = true) (hanchor : s.start_x = some sx)
    (hax : ev.inaxes = true) (hx : ev.xdata = some ex)
    (hL : argminAbs d.x (min sx ex) = L) (hR : argminAbs d.x (max sx ex) = R)
    (hgap : L + 1 ≤ R) :
    ∃ vL vR, d.x.get? L = some vL ∧ d.x.get? R = some vR ∧
      on_release d s ev = some { s with is_dragging := false, selection_rect := none, start_x := none, window_size := (R : ℤ) - (L : ℤ) + 1, current_pos := (L : ℤ), slider_valmax := (d.x.length : ℤ) - ((R : ℤ) - (L : ℤ) + 1), slider_val := (L : ℤ), xlim := (vL, vR) } := by
  have hne : d.x ≠ [] := by
    intro hnil
    rw [hnil] at hL hR
    simp only [argminAbs, argminAux, Option.map_none, Option.getD_none] at hL hR
    omega
  have hLspec := argminAbs_spec d.x (min sx ex) hne
  rw [hL] at hLspec
  obtain ⟨hLlen, vL, hvL, -, -⟩ := hLspec
  have hRspec := argminAbs_spec d.x (max sx ex) hne
  rw [hR] at hRspec
  obtain ⟨hRlen, vR, hvR, -, -⟩ := hRspec
  refine ⟨vL, vR, hvL, hvR, ?_⟩
  have hcastR : ((R : ℤ)) < (d.x.length : ℤ) := by exact_mod_cast hRlen
  have hvmax : max 0 ((d.x.length : ℤ) - ((R : ℤ) - (L : ℤ) + 1))
      = (d.x.length : ℤ) - ((R : ℤ) - (L : ℤ) + 1) := max_eq_right (by omega)
  have hminL : min ((L : ℤ)) ((d.x.length : ℤ) - ((R : ℤ) - (L : ℤ) + 1))
      = (L : ℤ) := min_eq_left (by omega)
  have hilocL : iloc d.x ((L : ℕ) : ℤ) = some vL := by rw [iloc_ofNat]; exact hvL
  have hilocR : iloc d.x ((R : ℕ) : ℤ) = some vR := by rw [iloc_ofNat]; exact hvR
  have hendidx : min ((L : ℤ) + ((R : ℤ) - (L : ℤ) + 1) - 1) ((d.x.length : ℤ) - 1)
      = ((R : ℕ) : ℤ) := by
    rw [show (L : ℤ) + ((R : ℤ) - (L : ℤ) + 1) - 1 = (R : ℤ) from by omega]
    exact min_eq_left (by omega)
  simp only [on_release, hanchor, hdrag, hax, hx, hL, hR]
  rw [if_pos (by omega : (1 : ℤ) ≤ (R : ℤ) - (L : ℤ))]
  rw [hvmax]
  unfold slider_set_val
  rw [hminL]
  rw [update_view_some d _ (L : ℤ) vL vR hilocL (by dsimp only; rw [hendidx]; exact hilocR)]
  dsimp only
  rw [hilocL, hilocR]

theorem on_release_discard_run
    (d : CsvData) (s : PlotState) (ev : Event) (sx ex : ℚ)
    (hdrag : s.is_dragging = true) (hanchor : s.start_x = some sx)
    (hax : ev.inaxes = true) (hx : ev.xdata = some ex)
    (hgap : ¬ argminAbs d.x (min sx ex) + 1 ≤ argminAbs d.x (max sx ex)) :
    on_release d s ev = some { s with is_dragging := false, selection_rect := none, start_x := none } := by
  simp only [on_release, hanchor, hdrag, hax, hx]
  rw [if_neg (by omega : ¬ (1 : ℤ) ≤ (argminAbs d.x (max sx ex) : ℤ) - (argminAbs d.x (min sx ex) : ℤ))]

/-- C1: a release ending an active in-axes drag computes the indices nearest
to the two drag endpoints by minimal absolute X distance with ties broken by
the first match in iteration order, and, whenever `right_idx - left_idx ≥ 1`,
commits the view: `window_size = right_idx - left_idx + 1`, scroll position
(`current_pos` and slider value) `= left_idx`, slider range `[0, n -
window_size]`, and X limits at the two selected data points. -/
theorem release_commit_selects_nearest
    (d : CsvData) (s : PlotState) (ev : Event) (sx ex : ℚ) (L R : ℕ)
    (hdrag : s.is_dragging = true) (hanchor : s.start_x = some sx)
    (hax : ev.inaxes = true) (hx : ev.xdata = some ex)
    (hL : argminAbs d.x (min sx ex) = L) (hR : argminAbs d.x (max sx ex) = R)
    (hgap : L + 1 ≤ R) :
    (∃ v, d.x.get? L = some v ∧
      (∀ i w, d.x.get? i = some w → |v - min sx ex| ≤ |w - min sx ex|) ∧
      (∀ i w, i < L → d.x.get? i = some w → |v - min sx ex| < |w - min sx ex|)) ∧
    (∃ v, d.x.get? R = some v ∧
      (∀ i w, d.x.get? i = some w → |v - max sx ex| ≤ |w - max sx ex|) ∧
      (∀ i w, i < R → d.x.get? i = some w → |v - max sx ex| < |w - max sx ex|)) ∧
    (∃ s', on_release d s ev = some s' ∧
      s'.window_size = (R : ℤ) - (L : ℤ) + 1 ∧
      s'.current_pos = (L : ℤ) ∧
      s'.slider_val = (L : ℤ) ∧
      s'.slider_valmax = (d.x.length : ℤ) - ((R : ℤ) - (L : ℤ) + 1) ∧
      s'.is_dragging = false ∧ s'.start_x = none ∧ s'.selection_rect = none ∧
      d.x.get? L = some s'.xlim.1 ∧ d.x.get? R = some s'.xlim.2) := by
  have hne : d.x ≠ [] := by
    intro hnil
    rw [hnil] at hL hR
    simp only [argminAbs, argminAux, Option.map_none, Option.getD_none] at hL hR
    omega
  have hLspec := argminAbs_spec d.x (min sx ex) hne
  rw [hL] at hLspec
  obtain ⟨hLlen, vL, hvL, hLnear, hLfirst⟩ := hLspec
  have hRspec := argminAbs_spec d.x (max sx ex) hne
  rw [hR] at hRspec
  obtain ⟨hRlen, vR, hvR, hRnear, hRfirst⟩ := hRspec
  obtain ⟨vL', vR', hvL', hvR', hrun⟩ :=
    on_release_commit_run d s ev sx ex L R hdrag hanchor hax hx hL hR hgap
  rw [hvL] at hvL'
  rw [hvR] at hvR'
  obtain rfl : vL = vL' := by injection hvL'
  obtain rfl : vR = vR' := by injection hvR'
  exact ⟨⟨vL, hvL, hLnear, hLfirst⟩, ⟨vR, hvR, hRnear, hRfirst⟩,
    ⟨_, hrun, rfl, rfl, rfl, rfl, rfl, rfl, rfl, hvL, hvR⟩⟩

/-- A 20-point integer grid used as concrete test data. -/
def xGrid20 : List ℚ :=
  [0, 1, 2, 3, 4, 5, 6, 7, 8, 9, 10, 11, 12, 13, 14, 15, 16, 17, 18, 19]

/-- A 20-row table over the integer grid with one Y series. -/
def dGrid20 : CsvData := { x := xGrid20, cols := [("y", xGrid20)], x_label := "t" }

/-- A state in the middle of a drag anchored at X = 3, full window. -/
def sDrag3 : PlotState :=
  { window_size := 20, current_pos := 0, is_dragging := true,
    start_x := some 3, selection_rect := some (3, 2), xlim := (0, 19),
    slider_valmax := 0, slider_val := 0, annot_visible := false,
    annot_text := "", annot_xy := (0, 0) }

/-- A left-button release at X = 9 inside the axes. -/
def evRelease9 : Event := { button := 1, inaxes := true, xdata := some 9 }

/-- A quiescent state with a 2-point window. -/
def sWin2 : PlotState :=
  { window_size := 2, current_pos := 0, is_dragging := false,
    start_x := none, selection_rect := none, xlim := (0, 1),
    slider_valmax := 18, slider_val := 0, annot_visible := false,
    annot_text := "", annot_xy := (0, 0) }

set_option maxRecDepth 4000 in
theorem argmin_grid20_left : argminAbs xGrid20 (min (3 : ℚ) 9) = 3 := by
  norm_num [argminAbs, argminAux, xGrid20]

set_option maxRecDepth 4000 in
theorem argmin_grid20_right : argminAbs xGrid20 (max (3 : ℚ) 9) = 9 := by
  norm_num [argminAbs, argminAux, xGrid20]

/-- Witness for C1: on the 20-point grid, releasing a drag with endpoints
X = 3 and X = 9 commits a window of size 7 starting at index 3. -/
theorem release_commit_selects_nearest_witness :
    ∃ s', on_release dGrid20 sDrag3 evRelease9 = some s' ∧
      s'.window_size = 7 ∧ s'.current_pos = 3 ∧ s'.slider_val = 3 := by
  obtain ⟨-, -, s', hrun, hw, hp, hv, -⟩ :=
    release_commit_selects_nearest dGrid20 sDrag3 evRelease9 3 9 3 9
      rfl rfl rfl rfl argmin_grid20_left argmin_grid20_right (by decide)
  exact ⟨s', hrun, by rw [hw]; decide, hp, hv⟩

/-- Witness for C3: on the 20-point grid with a 2-point window, scrolling to
position 1 shows `x[1]` to `x[2]` and is idempotent. -/
theorem set_by_indices_bounds_and_idempotent_witness :
    ∃ s', update_view dGrid20 sWin2 ((1 : ℕ) : ℤ) = some s' ∧
      dGrid20.x.get? 1 = some s'.xlim.1 ∧
      dGrid20.x.get? (1 + 2 - 1) = some s'.xlim.2 ∧
      update_view dGrid20 s' ((1 : ℕ) : ℤ) = some s' :=
  set_by_indices_bounds_and_idempotent dGrid20 sWin2 1 2 (by decide)
    (by decide) rfl

/-- C5 (amended): a release that ends an active drag with the pointer inside
the axes clears the whole drag state — `is_dragging`, the anchor coordinate
and the selection overlay — whether or not a zoom is committed; but a
release with the pointer outside the axes clears only `is_dragging`,
leaving the anchor and any drawn overlay in place (the stale overlay is
only removed at the next press). -/
theorem release_clears_drag_state
    (d : CsvData) (s : PlotState) (ev : Event) (sx : ℚ)
    (hdrag : s.is_dragging = true) (hanchor : s.start_x = some sx) :
    (∀ ex, ev.inaxes = true → ev.xdata = some ex →
      ∃ s', on_release d s ev = some s' ∧ s'.is_dragging = false ∧
        s'.start_x = none ∧ s'.selection_rect = none) ∧
    (ev.inaxes = false →
      on_release d s ev = some { s with is_dragging := false }) := by
  constructor
  · intro ex hax hx
    by_cases hgap : argminAbs d.x (min sx ex) + 1 ≤ argminAbs d.x (max sx ex)
    · obtain ⟨vL, vR, -, -, hrun⟩ :=
        on_release_commit_run d s ev sx ex _ _ hdrag hanchor hax hx rfl rfl hgap
      exact ⟨_, hrun, rfl, rfl, rfl⟩
    · exact ⟨_, on_release_discard_run d s ev sx ex hdrag hanchor hax hx hgap,
        rfl, rfl, rfl⟩
  · intro hax
    simp only [on_release, hanchor, hdrag, hax]

/-- A release event delivered with the pointer outside the axes. -/
def evOutside : Event := { button := 1, inaxes := false, xdata := none }

/-- C5 counterexample: on the 20-point grid, a release arriving after the
pointer has left the axes ends the active drag (`is_dragging` becomes
false) but keeps the anchor coordinate `some 3` and the selection overlay
`some (3, 2)`, contradicting the claim that both are cleared on every
release ending an active drag. -/
theorem release_outside_keeps_anchor_and_overlay :
    sDrag3.is_dragging = true ∧
    (on_release dGrid20 sDrag3 evOutside).map
        (fun t => (t.is_dragging, t.start_x, t.selection_rect))
      = some (false, some 3, some (3, 2)) ∧
    (some (3 : ℚ) ≠ none) ∧ (some ((3 : ℚ), (2 : ℚ)) ≠ (none : Option (ℚ × ℚ))) := by
  exact ⟨rfl, rfl, by simp, by simp⟩

/-- Witness for C5 (amended): an in-axes release on the 20-point grid clears
the drag flag, the anchor and the overlay. -/
theorem release_clears_drag_state_witness :
    ∃ s', on_release dGrid20 sDrag3 evRelease9 = some s' ∧
      s'.is_dragging = false ∧ s'.start_x = none ∧ s'.selection_rect = none :=
  (release_clears_drag_state dGrid20 sDrag3 evRelease9 3 rfl rfl).1 9 rfl rfl

/-- C6 (amended): a drag whose endpoints snap to nearest data-point indices
with `right_idx - left_idx < 1` is discarded on release — the drag state
and overlay are cleared and the view state (window size, scroll position,
axis limits, slider value and range) is unchanged. (The code's discard test
is this index condition, not a 1%-of-range width threshold: a drag narrower
than 1% of the X range commits whenever its endpoints snap to two distinct
indices in order.) -/
theorem narrow_drag_discarded
    (d : CsvData) (s : PlotState) (ev : Event) (sx ex : ℚ)
    (hdrag : s.is_dragging = true) (hanchor : s.start_x = some sx)
    (hax : ev.inaxes = true) (hx : ev.xdata = some ex)
    (hgap : argminAbs d.x (max sx ex) < argminAbs d.x (min sx ex) + 1) :
    ∃ s', on_release d s ev = some s' ∧
      s'.window_size = s.window_size ∧ s'.current_pos = s.current_pos ∧
      s'.xlim = s.xlim ∧ s'.slider_val = s.slider_val ∧
      s'.slider_valmax = s.slider_valmax :=
  ⟨_, on_release_discard_run d s ev sx ex hdrag hanchor hax hx (by omega),
    rfl, rfl, rfl, rfl, rfl⟩

/-- A left-button release at X = 3 inside the axes (a zero-width drag when
the anchor is also at 3). -/
def evRelease3 : Event := { button := 1, inaxes := true, xdata := some 3 }

set_option maxRecDepth 4000 in
theorem argmin_grid20_zero_width :
    argminAbs xGrid20 (max (3 : ℚ) 3) < argminAbs xGrid20 (min (3 : ℚ) 3) + 1 := by
  norm_num [argminAbs, argminAux, xGrid20]

/-- Witness for C6 (amended): a zero-width drag at X = 3 on the 20-point
grid is discarded and leaves the view unchanged. -/
theorem narrow_drag_discarded_witness :
    ∃ s', on_release dGrid20 sDrag3 evRelease3 = some s' ∧
      s'.window_size = sDrag3.window_size ∧
      s'.current_pos = sDrag3.current_pos ∧
      s'.xlim = sDrag3.xlim ∧ s'.slider_val = sDrag3.slider_val ∧
      s'.slider_valmax = sDrag3.slider_valmax :=
  narrow_drag_discarded dGrid20 sDrag3 evRelease3 3 3 rfl rfl rfl rfl
    argmin_grid20_zero_width

/-- Three data points whose X values cluster near 0 and stretch to 1000. -/
def xDense : List ℚ := [0, 1, 1000]

/-- A table over `xDense` with one Y series. -/
def dDense : CsvData := { x := xDense, cols := [("y", [5, 6, 7])], x_label := "t" }

/-- A state mid-drag on `dDense`, anchored at X = 0, full window. -/
def sDragDense : PlotState :=
  { window_size := 3, current_pos := 0, is_dragging := true,
    start_x := some 0, selection_rect := some (0, 1), xlim := (0, 1000),
    slider_valmax := 0, slider_val := 0, annot_visible := false,
    annot_text := "", annot_xy := (0, 0) }

/-- A left-button release at X = 2 inside the axes. -/
def evNarrow : Event := { button := 1, inaxes := true, xdata := some 2 }

theorem argmin_dense_left : argminAbs xDense (min (0 : ℚ) 2) = 0 := by
  norm_num [argminAbs, argminAux, xDense]

theorem argmin_dense_right : argminAbs xDense (max (0 : ℚ) 2) = 1 := by
  norm_num [argminAbs, argminAux, xDense]

/-- C6 counterexample: on data with X values [0, 1, 1000], a drag from
X = 0 to X = 2 is narrower than 1% of the full X range (2 < 10), yet it is
committed rather than discarded: the window size changes from 3 to 2 and
the X limits change from (0, 1000) to (0, 1). -/
theorem sub_percent_drag_commits :
    (100 : ℚ) * |(2 : ℚ) - 0| < 1000 - 0 ∧
    dDense.x.min? = some 0 ∧ dDense.x.max? = some 1000 ∧
    sDragDense.window_size = 3 ∧ sDragDense.xlim = (0, 1000) ∧
    (on_release dDense sDragDense evNarrow).map
        (fun t => (t.window_size, t.xlim))
      = some (2, ((0 : ℚ), (1 : ℚ))) := by
  obtain ⟨vL, vR, hvL, hvR, hrun⟩ :=
    on_release_commit_run dDense sDragDense evNarrow 0 2 0 1 rfl rfl rfl rfl
      argmin_dense_left argmin_dense_right (by decide)
  obtain rfl : (0 : ℚ) = vL := by
    injection ((rfl : dDense.x.get? 0 = some 0).symm.trans hvL)
  obtain rfl : (1 : ℚ) = vR := by
    injection ((rfl : dDense.x.get? 1 = some 1).symm.trans hvR)
  refine ⟨by norm_num, ?_, ?_, rfl, rfl, ?_⟩
  · show (xDense.min? = some 0)
    norm_num [xDense, List.min?, min_def]
  · show (xDense.max? = some 1000)
    norm_num [xDense, List.max?, max_def]
  · rw [hrun]
    rfl

theorem on_press_reset_run
    (d : CsvData) (s : PlotState) (ev : Event)
    (hax : ev.inaxes = true) (hbtn : ev.button = 3)
    (hn : 1 ≤ d.x.length) (lo hi : ℚ)
    (hlo : d.x.min? = some lo) (hhi : d.x.max? = some hi) :
    on_press d s ev = some ({ s with window_size := (d.x.length : ℤ), current_pos := 0, slider_valmax := max 0 ((d.x.length : ℤ) - (d.x.length : ℤ)), slider_val := 0, xlim := (lo, hi) }) := by
  obtain ⟨v0, hv0⟩ := iloc_isSome_of_lt d.x 0 le_rfl (by omega)
  obtain ⟨v1, hv1⟩ := iloc_isSome_of_lt d.x ((d.x.length : ℤ) - 1)
    (by omega) (by omega)
  have hmin : min ((0 : ℤ) + (d.x.length : ℤ) - 1) ((d.x.length : ℤ) - 1)
      = (d.x.length : ℤ) - 1 := by omega
  have hset : slider_set_val d ({ s with window_size := (d.x.length : ℤ), current_pos := 0, slider_valmax := max 0 ((d.x.length : ℤ) - (d.x.length : ℤ)) }) 0
      = some ({ s with window_size := (d.x.length : ℤ), current_pos := 0, slider_valmax := max 0 ((d.x.length : ℤ) - (d.x.length : ℤ)), slider_val := 0, xlim := (v0, v1) }) := by
    unfold slider_set_val
    exact update_view_some d _ 0 v0 v1 hv0 (by dsimp only; rw [hmin]; exact hv1)
  simp only [on_press, hax, hbtn]
  rw [hset]
  dsimp only
  rw [hlo, hhi]
  simp

/-- C2 (amended): for every prior window state, a right-click inside the
plot performs a full reset: `window_size` becomes `n`, the scroll position
becomes 0, the slider range is recomputed to `[0, max(0, n - window_size)]`
(= `[0, 0]`) with slider value 0, and the visible X window is restored to
exactly the unpadded full-data X bounds `(x_min, x_max)`. (The Y limits,
set once at load to the 5%-padded full Y bounds, are never touched by the
handlers.) -/
theorem right_click_reset
    (d : CsvData) (s : PlotState) (ev : Event)
    (hax : ev.inaxes = true) (hbtn : ev.button = 3)
    (hn : 1 ≤ d.x.length) (lo hi : ℚ)
    (hlo : d.x.min? = some lo) (hhi : d.x.max? = some hi) :
    ∃ s', on_press d s ev = some s' ∧
      s'.window_size = (d.x.length : ℤ) ∧ s'.current_pos = 0 ∧
      s'.slider_valmax = max 0 ((d.x.length : ℤ) - s'.window_size) ∧
      s'.slider_val = 0 ∧ s'.xlim = (lo, hi) :=
  ⟨_, on_press_reset_run d s ev hax hbtn hn lo hi hlo hhi,
    rfl, rfl, rfl, rfl, rfl⟩

/-- An in-axes right-click event. -/
def evRight : Event := { button := 3, inaxes := true, xdata := some 5 }

theorem xGrid20_min : dGrid20.x.min? = some 0 := by
  show xGrid20.min? = some 0
  norm_num [xGrid20, List.min?, min_def]

theorem xGrid20_max : dGrid20.x.max? = some 19 := by
  show xGrid20.max? = some 19
  norm_num [xGrid20, List.max?, max_def]

/-- Witness for C2 (amended): a right-click on the 20-point grid resets
window size to 20, scroll to 0, slider range to [0, 0], and the X limits to
the unpadded bounds (0, 19). -/
theorem right_click_reset_witness :
    ∃ s', on_press dGrid20 sWin2 evRight = some s' ∧
      s'.window_size = (dGrid20.x.length : ℤ) ∧ s'.current_pos = 0 ∧
      s'.slider_valmax = max 0 ((dGrid20.x.length : ℤ) - s'.window_size) ∧
      s'.slider_val = 0 ∧ s'.xlim = (0, 19) :=
  right_click_reset dGrid20 sWin2 evRight rfl rfl (by decide) 0 19
    xGrid20_min xGrid20_max

/-- A two-point table whose X values span [0, 20]. -/
def dPad : CsvData := { x := [0, 20], cols := [("y", [1, 2])], x_label := "t" }

/-- C2 counterexample: on data with X bounds (0, 20), the spec's padded
full-data bounds are (-1, 21), but a right-click reset sets the X window to
exactly (0, 20) — the unpadded bounds — so the visible window is not
restored to the padded full-data bounds. -/
theorem right_click_reset_not_padded :
    specPaddedBounds dPad = some (-1, 21) ∧
    (on_press dPad sWin2 evRight).map (fun t => t.xlim) = some ((0 : ℚ), 20) ∧
    ((0 : ℚ), (20 : ℚ)) ≠ ((-1 : ℚ), (21 : ℚ)) := by
  refine ⟨?_, ?_, by norm_num⟩
  · norm_num [specPaddedBounds, dPad, List.min?, List.max?, min_def, max_def]
  · norm_num [on_press, slider_set_val, update_view, iloc, dPad, sWin2,
      evRight, List.min?, List.max?, min_def, max_def]

theorem minmax_some_of_length (l : List ℚ) (hl : 1 ≤ l.length) :
    (∃ lo, l.min? = some lo) ∧ ∃ hi, l.max? = some hi := by
  cases l with
  | nil => simp at hl
  | cons a t => exact ⟨⟨t.foldl min a, rfl⟩, ⟨t.foldl max a, rfl⟩⟩

theorem hoverLoop_ne_none (d : CsvData) (s : PlotState)
    (l : List ((String × List ℚ) × Option ℕ))
    (hwf : ∀ p ∈ l, ∀ i, p.2 = some i → i < d.x.length ∧ i < p.1.2.length) :
    hoverLoop d s l ≠ none := by
  induction l with
  | nil => simp [hoverLoop]
  | cons p rest ih =>
    obtain ⟨c, hit⟩ := p
    cases hit with
    | none =>
      simp only [hoverLoop]
      exact ih fun q hq i hi => hwf q (List.mem_cons_of_mem _ hq) i hi
    | some i =>
      obtain ⟨hx, hy⟩ := hwf (c, some i) (List.mem_cons_self _ _) i rfl
      simp only [hoverLoop]
      rw [List.get?_eq_get hx, List.get?_eq_get hy]
      simp

theorem update_view_ne_none (d : CsvData) (s : PlotState) (pos : ℤ)
    (h0 : 0 ≤ pos) (hle : pos ≤ (d.x.length : ℤ) - s.window_size)
    (hws : 1 ≤ s.window_size) : update_view d s pos ≠ none := by
  obtain ⟨a, ha⟩ := iloc_isSome_of_lt d.x pos h0 (by omega)
  obtain ⟨b, hb⟩ := iloc_isSome_of_lt d.x
    (min (pos + s.window_size - 1) ((d.x.length : ℤ) - 1)) (by omega) (by omega)
  rw [update_view_some d s pos a b ha hb]
  simp

/-- C4 (amended): after a successful load (`n ≥ 1`), the press, motion,
release and hover handlers cannot fail on well-formed events (an in-axes
event carries an X coordinate; hover hit indices address rendered points);
the scroll handler clamps the window's end index to `n - 1` but uses the
raw scroll position as the start index, so it succeeds for every position
in the slider's range `[0, n - window_size]` — while an out-of-range scroll
position is not clamped into bounds and fails instead. -/
theorem handlers_nofail_in_range (d : CsvData) (s : PlotState)
    (hn : 1 ≤ d.x.length) :
    (∀ ev : Event, (ev.inaxes = true → ev.xdata ≠ none) →
      on_press d s ev ≠ none) ∧
    (∀ ev : Event, (ev.inaxes = true → ev.xdata ≠ none) →
      on_motion s ev ≠ none) ∧
    (∀ ev : Event, (ev.inaxes = true → ev.xdata ≠ none) →
      on_release d s ev ≠ none) ∧
    (∀ ev : HoverEvent,
      (∀ p ∈ d.cols.zip ev.hits, ∀ i, p.2 = some i →
        i < d.x.length ∧ i < p.1.2.length) →
      on_hover d s ev ≠ none) ∧
    (∀ pos : ℤ, 0 ≤ pos → pos ≤ (d.x.length : ℤ) - s.window_size →
      1 ≤ s.window_size → on_scroll d s pos ≠ none) := by
  refine ⟨?_, ?_, ?_, ?_, ?_⟩
  · intro ev hwf
    by_cases hax : ev.inaxes = true
    · by_cases hbtn : ev.button = 3
      · obtain ⟨⟨lo, hlo⟩, hi, hhi⟩ := minmax_some_of_length d.x hn
        rw [on_press_reset_run d s ev hax hbtn hn lo hi hlo hhi]
        simp
      · by_cases hb1 : ev.button = 1
        · simp [on_press, hax, hbtn, hb1]
        · simp [on_press, hax, hbtn, hb1]
    · simp [on_press, hax]
  · intro ev hwf
    unfold on_motion
    split
    · next hcond =>
      obtain ⟨hdr, hin, hsx⟩ := hcond
      obtain ⟨sx, hsx'⟩ := Option.ne_none_iff_exists'.mp hsx
      obtain ⟨ex, hex⟩ := Option.ne_none_iff_exists'.mp (hwf hin)
      rw [hsx', hex]
      simp
    · simp
  · intro ev hwf
    cases hsx : s.start_x with
    | none => simp [on_release, hsx]
    | some sx =>
      cases hdr : s.is_dragging with
      | false => simp [on_release, hsx, hdr]
      | true =>
        cases hin : ev.inaxes with
        | false => simp [on_release, hsx, hdr, hin]
        | true =>
          obtain ⟨ex, hex⟩ := Option.ne_none_iff_exists'.mp (hwf hin)
          by_cases hgap :
              argminAbs d.x (min sx ex) + 1 ≤ argminAbs d.x (max sx ex)
          · obtain ⟨vL, vR, -, -, hrun⟩ := on_release_commit_run d s ev sx ex
              _ _ hdr hsx hin hex rfl rfl hgap
            rw [hrun]
            simp
          · rw [on_release_discard_run d s ev sx ex hdr hsx hin hex hgap]
            simp
  · intro ev hwf
    unfold on_hover
    split
    · simp
    · exact hoverLoop_ne_none d s _ hwf
  · intro pos h0 hle hws
    exact update_view_ne_none d s pos h0 hle hws

/-- C4 counterexample: with 2 data points and a 2-point window, a scroll
event carrying the out-of-range position 2 is not silently clamped into
bounds — the handler indexes the data at the raw position and fails (the
`IndexError` modelled by `none`), so not every data index is clamped into
`[0, n-1]` before indexing. -/
theorem out_of_range_scroll_fails : on_scroll dPad sWin2 2 = none := by
  rfl

/-- A hover motion event whose first (only) line reports containment at
point index 5. -/
def hovEv5 : HoverEvent := { inaxes := true, hits := [some 5] }

/-- Witness for C4 (amended): on the 20-point grid mid-drag, press, motion,
release and hover handlers all succeed, as does a scroll to position 0. -/
theorem handlers_nofail_in_range_witness :
    on_press dGrid20 sDrag3 evRight ≠ none ∧
    on_motion sDrag3 evRelease9 ≠ none ∧
    on_release dGrid20 sDrag3 evRelease9 ≠ none ∧
    on_hover dGrid20 sDrag3 hovEv5 ≠ none ∧
    on_scroll dGrid20 sDrag3 0 ≠ none := by
  obtain ⟨hp, hm, hr, hh, hsc⟩ :=
    handlers_nofail_in_range dGrid20 sDrag3 (by decide)
  refine ⟨hp evRight (fun _ => by decide), hm evRelease9 (fun _ => by decide),
    hr evRelease9 (fun _ => by decide), hh hovEv5 ?_,
    hsc 0 (by decide) (by decide) (by decide)⟩
  intro p hp5 i hi
  simp only [dGrid20, hovEv5, List.zip, List.zipWith, List.mem_singleton] at hp5
  subst hp5
  simp only [Option.some.injEq] at hi
  subst hi
  exact ⟨by decide, by decide⟩

theorem hoverLoop_all_none (d : CsvData) (s : PlotState)
    (l : List ((String × List ℚ) × Option ℕ)) (h : ∀ p ∈ l, p.2 = none) :
    hoverLoop d s l = some { s with annot_visible := false } := by
  induction l with
  | nil => rfl
  | cons p rest ih =>
    obtain ⟨c, hit⟩ := p
    have hn : hit = none := h (c, hit) (List.mem_cons_self _ _)
    subst hn
    simp only [hoverLoop]
    exact ih fun q hq => h q (List.mem_cons_of_mem _ hq)

theorem hoverLoop_first_hit (d : CsvData) (s : PlotState)
    (pre post : List ((String × List ℚ) × Option ℕ))
    (name : String) (ys : List ℚ) (i : ℕ) (xv yv : ℚ)
    (hpre : ∀ p ∈ pre, p.2 = none)
    (hx : d.x.get? i = some xv) (hy : ys.get? i = some yv) :
    hoverLoop d s (pre ++ ((name, ys), some i) :: post)
      = some { s with annot_xy := (xv, yv), annot_text := annotText d name xv yv, annot_visible := true } := by
  induction pre with
  | nil =>
    simp only [List.nil_append, hoverLoop]
    rw [hx, hy]
  | cons p rest ih =>
    obtain ⟨c, hit⟩ := p
    have hn : hit = none := hpre (c, hit) (List.mem_cons_self _ _)
    subst hn
    simp only [List.cons_append, hoverLoop]
    exact ih fun q hq => hpre q (List.mem_cons_of_mem _ hq)

/-- C7: for every motion event inside the plot, while a drag is active the
hover annot is hidden; otherwise the annot reports the first series in
declaration order whose rendered line contains the pointer — anchored at
that point and showing the series name and the point's X and Y values
formatted to 4 significant digits (`annotText`, i.e. the `:.4g` rendering
`fmt4g`) — and is hidden when no series matches. -/
theorem hover_reports_first_match (d : CsvData) (s : PlotState)
    (ev : HoverEvent) (hax : ev.inaxes = true) :
    (s.is_dragging = true →
      on_hover d s ev = some { s with annot_visible := false }) ∧
    (s.is_dragging = false →
      (∀ p ∈ d.cols.zip ev.hits, p.2 = none) →
      on_hover d s ev = some { s with annot_visible := false }) ∧
    (s.is_dragging = false →
      ∀ pre name ys i post,
        d.cols.zip ev.hits = pre ++ ((name, ys), some i) :: post →
        (∀ p ∈ pre, p.2 = none) →
        ∀ xv yv, d.x.get? i = some xv → ys.get? i = some yv →
        on_hover d s ev
          = some { s with annot_xy := (xv, yv), annot_text := annotText d name xv yv, annot_visible := true }) := by
  refine ⟨?_, ?_, ?_⟩
  · intro hdrag
    simp [on_hover, hdrag]
  · intro hdrag hnone
    simp only [on_hover, hax, hdrag]
    rw [if_neg (by simp)]
    rw [hoverLoop_all_none d s _ hnone, hdrag]
  · intro hdrag pre name ys i post hdecomp hpre xv yv hx hy
    simp only [on_hover, hax, hdrag]
    rw [if_neg (by simp)]
    rw [hdecomp, hoverLoop_first_hit d s pre post name ys i xv yv hpre hx hy,
      hdrag]

theorem fmt4g_five : fmt4g 5 = "5" := by
  have habs : |(5 : ℚ)| = 5 := by norm_num
  have he : decExp 5 = 0 := by
    have hfl : (⌊(5 : ℚ)⌋).toNat = 5 := by norm_num; rfl
    unfold decExp
    rw [if_pos (by norm_num : (1 : ℚ) ≤ 5), hfl]
    rfl
  have hm : round ((5 : ℚ) * (10 : ℚ) ^ ((3 : ℤ) - 0)) = 5000 := by
    norm_num [round_eq]
  unfold fmt4g
  rw [if_neg (by norm_num : ¬ (5 : ℚ) = 0)]
  dsimp only
  rw [habs, he, hm]
  rw [if_neg (by norm_num : ¬ (5 : ℚ) < 0)]
  rfl

theorem fmt4g_temp_val : fmt4g (12.3456 : ℚ) = "12.35" := by
  have habs : |(12.3456 : ℚ)| = 12.3456 := by norm_num
  have he : decExp 12.3456 = 1 := by
    have hfl : (⌊(12.3456 : ℚ)⌋).toNat = 12 := by norm_num; rfl
    unfold decExp
    rw [if_pos (by norm_num : (1 : ℚ) ≤ 12.3456), hfl]
    rfl
  have hm : round ((12.3456 : ℚ) * (10 : ℚ) ^ ((3 : ℤ) - 1)) = 1235 := by
    norm_num [round_eq]
  unfold fmt4g
  rw [if_neg (by norm_num : ¬ (12.3456 : ℚ) = 0)]
  dsimp only
  rw [habs, he, hm]
  rw [if_neg (by norm_num : ¬ (12.3456 : ℚ) < 0)]
  rfl

/-- A 6-row table with two Y series; "temp" holds 12.3456 at index 5. -/
def dTemp : CsvData :=
  { x := [0, 1, 2, 3, 4, 5],
    cols := [("other", [0, 0, 0, 0, 0, 0]),
             ("temp", [10, 10, 10, 10, 10, 12.3456])],
    x_label := "x" }

/-- A quiescent full-window state over `dTemp`. -/
def sIdle : PlotState :=
  { window_size := 6, current_pos := 0, is_dragging := false,
    start_x := none, selection_rect := none, xlim := (0, 5),
    slider_valmax := 0, slider_val := 0, annot_visible := false,
    annot_text := "", annot_xy := (0, 0) }

/-- A motion event inside the axes: the "other" line does not contain the
pointer, the "temp" line does, at its point of index 5. -/
def hovTemp : HoverEvent := { inaxes := true, hits := [none, some 5] }

/-- Witness for C7: hovering over the rendered point `(5, 12.3456)` of
series "temp" — the first matching series, the earlier one not containing
the pointer — shows the annot anchored there with text
`temp\nx: 5\nY: 12.35` (4 significant digits). -/
theorem hover_reports_first_match_witness :
    on_hover dTemp sIdle hovTemp = some { sIdle with annot_xy := (5, 12.3456), annot_text := "temp" ++ "\n" ++ "x" ++ ": " ++ "5" ++ "\nY: " ++ "12.35", annot_visible := true } := by
  have h := (hover_reports_first_match dTemp sIdle hovTemp rfl).2.2 rfl
    [(("other", [0, 0, 0, 0, 0, 0]), none)] "temp"
    [10, 10, 10, 10, 10, 12.3456] 5 [] rfl (by simp) 5 12.3456 rfl rfl
  have htext : annotText dTemp "temp" 5 (12.3456 : ℚ)
      = "temp" ++ "\n" ++ "x" ++ ": " ++ "5" ++ "\nY: " ++ "12.35" := by
    unfold annotText
    rw [fmt4g_five, fmt4g_temp_val]
    rfl
  rw [htext] at h
  exact h

/-- C8: loading a missing file, a completely empty file (zero rows — the
`EmptyDataError` outcome), malformed content, or a table with fewer than 2
columns each makes the program print a one-line diagnostic (newline-free
whenever the interpolated file name / exception text is) and exit with the
non-zero status 1, and no chart is shown in any of these cases. -/
theorem load_failures_exit_nonzero (csv_file : String) (sp : ℕ)
    (hfile : ¬ '\n' ∈ csv_file.data)
    (msg : String) (hmsg : ¬ '\n' ∈ msg.data)
    (df : DataFrame) (hcols : df.columns.length < 2) :
    (∃ diag, plot_csv_data csv_file ReadCsvResult.fileNotFound sp
        = PlotOutcome.exited diag 1 ∧ ¬ '\n' ∈ diag.data) ∧
    (∃ diag, plot_csv_data csv_file ReadCsvResult.emptyData sp
        = PlotOutcome.exited diag 1 ∧ ¬ '\n' ∈ diag.data) ∧
    (∃ diag, plot_csv_data csv_file (ReadCsvResult.parseErr msg) sp
        = PlotOutcome.exited diag 1 ∧ ¬ '\n' ∈ diag.data) ∧
    (∃ diag, plot_csv_data csv_file (ReadCsvResult.table df) sp
        = PlotOutcome.exited diag 1 ∧ ¬ '\n' ∈ diag.data) ∧
    (∀ res chart, plot_csv_data csv_file res sp = PlotOutcome.shown chart →
      res ≠ ReadCsvResult.fileNotFound ∧ res ≠ ReadCsvResult.emptyData ∧
      res ≠ ReadCsvResult.parseErr msg ∧ res ≠ ReadCsvResult.table df) := by
  have happ : ∀ pre post : String, ¬ '\n' ∈ pre.data → ¬ '\n' ∈ post.data →
      ∀ mid : String, ¬ '\n' ∈ mid.data →
      ¬ '\n' ∈ (pre ++ mid ++ post).data := by
    intro pre post hpre hpost mid hmid h
    rw [String.data_append, String.data_append] at h
    rcases List.mem_append.mp h with h1 | h2
    · rcases List.mem_append.mp h1 with ha | hb
      · exact hpre ha
      · exact hmid hb
    · exact hpost h2
  have h1 : plot_csv_data csv_file ReadCsvResult.fileNotFound sp
      = PlotOutcome.exited ("Error: File " ++ csv_file ++ " not found") 1 := rfl
  have h2 : plot_csv_data csv_file ReadCsvResult.emptyData sp
      = PlotOutcome.exited ("Error: File " ++ csv_file ++ " is empty") 1 := rfl
  have h3 : plot_csv_data csv_file (ReadCsvResult.parseErr msg) sp
      = PlotOutcome.exited ("Error reading CSV file: " ++ msg) 1 := rfl
  have h4 : plot_csv_data csv_file (ReadCsvResult.table df) sp
      = PlotOutcome.exited "Error: CSV file must have at least 2 columns" 1 := by
    simp only [plot_csv_data]
    rw [if_pos hcols]
  refine ⟨⟨_, h1, happ _ _ (by decide) (by decide) _ hfile⟩,
    ⟨_, h2, happ _ _ (by decide) (by decide) _ hfile⟩,
    ⟨_, h3, ?_⟩,
    ⟨_, h4, by decide⟩, ?_⟩
  · intro h
    rw [String.data_append] at h
    rcases List.mem_append.mp h with ha | hb
    · exact absurd ha (by decide)
    · exact hmsg hb
  · intro res chart hshown
    refine ⟨?_, ?_, ?_, ?_⟩ <;> intro hres <;> rw [hres] at hshown
    · rw [h1] at hshown; exact PlotOutcome.noConfusion hshown
    · rw [h2] at hshown; exact PlotOutcome.noConfusion hshown
    · rw [h3] at hshown; exact PlotOutcome.noConfusion hshown
    · rw [h4] at hshown; exact PlotOutcome.noConfusion hshown

/-- A parsed single-column table. -/
def dfOneCol : DataFrame := { columns := [("only", [1, 2, 3])] }

/-- Witness for C8: with file name `data.csv`, exception text `bad token`,
and a one-column table, all four load-failure cases exit with status 1 and
a one-line diagnostic, and none of them shows a chart. -/
theorem load_failures_exit_nonzero_witness :
    (∃ diag, plot_csv_data "data.csv" ReadCsvResult.fileNotFound 10
        = PlotOutcome.exited diag 1 ∧ ¬ '\n' ∈ diag.data) ∧
    (∃ diag, plot_csv_data "data.csv" ReadCsvResult.emptyData 10
        = PlotOutcome.exited diag 1 ∧ ¬ '\n' ∈ diag.data) ∧
    (∃ diag, plot_csv_data "data.csv" (ReadCsvResult.parseErr "bad token") 10
        = PlotOutcome.exited diag 1 ∧ ¬ '\n' ∈ diag.data) ∧
    (∃ diag, plot_csv_data "data.csv" (ReadCsvResult.table dfOneCol) 10
        = PlotOutcome.exited diag 1 ∧ ¬ '\n' ∈ diag.data) ∧
    (∀ res chart, plot_csv_data "data.csv" res 10 = PlotOutcome.shown chart →
      res ≠ ReadCsvResult.fileNotFound ∧ res ≠ ReadCsvResult.emptyData ∧
      res ≠ ReadCsvResult.parseErr "bad token" ∧
      res ≠ ReadCsvResult.table dfOneCol) :=
  load_failures_exit_nonzero "data.csv" 10 (by decide) "bad token" (by decide)
    dfOneCol (by decide)

/-- C9: for every loaded table with `n ≥ 1` rows, the initial visible X
window spans the first `min 50 n` data points — from `x[0]` to
`x[min 49 (n-1)]` — and, whenever the table has more than 50 rows of
strictly increasing X values, this stops strictly short of the full data
range. -/
theorem initial_window_first_fifty (d : CsvData) (hn : 1 ≤ d.x.length) :
    (∃ a b, d.x.get? 0 = some a ∧
      d.x.get? (min 49 (d.x.length - 1)) = some b ∧
      initial_xlim d = some (a, b)) ∧
    (50 < d.x.length → d.x.Sorted (· < ·) →
      ∀ a b c, initial_xlim d = some (a, b) →
        d.x.get? (d.x.length - 1) = some c → b < c) := by
  have h0 : 0 < d.x.length := by omega
  have hmlt : min 49 (d.x.length - 1) < d.x.length := by omega
  have hix : initial_xlim d
      = some (d.x.get ⟨0, h0⟩, d.x.get ⟨min 49 (d.x.length - 1), hmlt⟩) := by
    have hidx : min (initial_window d.x.length - 1) (d.x.length - 1)
        = min 49 (d.x.length - 1) := by
      unfold initial_window
      omega
    unfold initial_xlim
    dsimp only
    rw [hidx, List.get?_eq_get h0, List.get?_eq_get hmlt]
    rfl
  refine ⟨⟨_, _, List.get?_eq_get h0, List.get?_eq_get hmlt, hix⟩, ?_⟩
  intro h50 hsort a b c hinit hc
  rw [hix] at hinit
  simp only [Option.some.injEq, Prod.mk.injEq] at hinit
  obtain ⟨-, hb⟩ := hinit
  have hlast : d.x.length - 1 < d.x.length := by omega
  rw [List.get?_eq_get hlast] at hc
  simp only [Option.some.injEq] at hc
  rw [← hb, ← hc]
  exact hsort.get_strictMono (by simp only [Fin.mk_lt_mk]; omega)

/-- Witness for C9: on the 20-point grid, the initial X window runs from
`x[0]` to `x[min 49 19] = x[19]`. -/
theorem initial_window_first_fifty_witness :
    ∃ a b, dGrid20.x.get? 0 = some a ∧
      dGrid20.x.get? (min 49 (dGrid20.x.length - 1)) = some b ∧
      initial_xlim dGrid20 = some (a, b) :=
  (initial_window_first_fifty dGrid20 (by decide)).1

theorem lt_ceil_div_iff (n s k : ℕ) (hs : 1 ≤ s) (hn : 1 ≤ n) :
    k < (n + s - 1) / s ↔ s * k < n := by
  constructor
  · intro h
    have h' := (Nat.le_div_iff_mul_le hs).mp h
    rw [Nat.succ_mul, Nat.mul_comm] at h'
    set m := s * k with hm
    omega
  · intro h
    have h' : (k + 1) * s ≤ n + s - 1 := by
      rw [add_mul, one_mul, Nat.mul_comm]
      set m := s * k with hm
      omega
    exact (Nat.le_div_iff_mul_le hs).mpr h'

theorem mem_tick_base (n s i : ℕ) (hs : 1 ≤ s) (hn : 1 ≤ n) :
    i ∈ List.range' 0 ((n + s - 1) / s) s ↔ (∃ k, i = s * k) ∧ i < n := by
  rw [List.mem_range']
  constructor
  · rintro ⟨k, hk, h⟩
    rw [h, zero_add]
    exact ⟨⟨k, rfl⟩, (lt_ceil_div_iff n s k hs hn).mp hk⟩
  · rintro ⟨⟨k, rfl⟩, hlt⟩
    exact ⟨k, (lt_ceil_div_iff n s k hs hn).mpr hlt, (zero_add _).symm⟩

theorem mapM_get?_some (l : List ℚ) (t : List ℕ)
    (h : ∀ i ∈ t, i < l.length) :
    ∃ ps, t.mapM (fun i => l.get? i) = some ps ∧
      List.Forall₂ (fun i v => l.get? i = some v) t ps := by
  induction t with
  | nil => exact ⟨[], rfl, List.Forall₂.nil⟩
  | cons i t ih =>
    obtain ⟨ps, hps, hall⟩ := ih fun j hj => h j (List.mem_cons_of_mem _ hj)
    have hi : i < l.length := h i (List.mem_cons_self _ _)
    refine ⟨l.get ⟨i, hi⟩ :: ps, ?_, List.Forall₂.cons (List.get?_eq_get hi) hall⟩
    rw [List.mapM_cons, List.get?_eq_get hi, hps]
    rfl

/-- C10: for every `n ≥ 1` and positive tick spacing `s`, the X tick
indices are exactly the multiples of `s` below `n` together with `n - 1`
(appended when not already the last generated index), the last index is
always `n - 1` — so the last data point always carries a tick label — and
the tick positions are the data values at those indices. -/
theorem tick_positions_spec (n s : ℕ) (hn : 1 ≤ n) (hs : 1 ≤ s) :
    ∃ t, tickIndices n s = some t ∧
      (∀ i, i ∈ t ↔ ((∃ k, i = s * k) ∧ i < n) ∨ i = n - 1) ∧
      t.getLast? = some (n - 1) ∧ (n - 1) ∈ t ∧
      (∀ d : CsvData, d.x.length = n →
        ∃ ps, tickPositions d s = some ps ∧
          List.Forall₂ (fun i v => d.x.get? i = some v) t ps) := by
  have hL : 1 ≤ (n + s - 1) / s := (Nat.le_div_iff_mul_le hs).mpr (by omega)
  set base := List.range' 0 ((n + s - 1) / s) s with hbase
  have hlen : base.length = (n + s - 1) / s := List.length_range' 0 s ((n + s - 1) / s)
  have hne : base ≠ [] := by
    intro hnil
    rw [hnil] at hlen
    simp at hlen
    omega
  obtain ⟨last, hlast⟩ : ∃ last, base.getLast? = some last :=
    ⟨base.getLast hne, List.getLast?_eq_getLast base hne⟩
  have hlast_mem : last ∈ base := by
    have hmem := List.getLast_mem hne
    have heq : base.getLast? = some (base.getLast hne) :=
      List.getLast?_eq_getLast base hne
    rw [hlast] at heq
    injection heq with heq'
    rw [heq']
    exact hmem
  have hrun : tickIndices n s
      = some (if last ≠ n - 1 then base ++ [n - 1] else base) := by
    unfold tickIndices
    dsimp only
    rw [← hbase, hlast]
  set t := if last ≠ n - 1 then base ++ [n - 1] else base with ht
  have hmem : ∀ i, i ∈ t ↔ ((∃ k, i = s * k) ∧ i < n) ∨ i = n - 1 := by
    intro i
    rw [ht]
    by_cases hc : last ≠ n - 1
    · rw [if_pos hc]
      simp only [List.mem_append, List.mem_singleton]
      rw [hbase, mem_tick_base n s i hs hn]
    · rw [if_neg hc]
      push_neg at hc
      constructor
      · intro hi
        exact Or.inl ((mem_tick_base n s i hs hn).mp (by rwa [hbase] at hi))
      · intro hi
        rcases hi with hi | rfl
        · rw [hbase]
          exact (mem_tick_base n s i hs hn).mpr hi
        · rw [← hc]
          exact hlast_mem
  have hlast_t : t.getLast? = some (n - 1) := by
    rw [ht]
    by_cases hc : last ≠ n - 1
    · rw [if_pos hc]
      exact List.getLast?_concat base
    · rw [if_neg hc]
      push_neg at hc
      rw [hlast, hc]
  refine ⟨t, hrun, hmem, hlast_t, (hmem (n - 1)).mpr (Or.inr rfl), ?_⟩
  intro d hd
  obtain ⟨ps, hps, hall⟩ := mapM_get?_some d.x t (fun i hi => by
    rcases (hmem i).mp hi with ⟨-, hlt⟩ | rfl <;> omega)
  refine ⟨ps, ?_, hall⟩
  unfold tickPositions
  rw [hd, hrun]
  exact hps

/-- Witness for C10: with 6 points and spacing 2 the tick indices come out
as `some t` with last index 5 = n - 1 carried as a tick, and on the 6-row
table `dTemp` the positions are the corresponding data values. -/
theorem tick_positions_spec_witness :
    ∃ t, tickIndices 6 2 = some t ∧ (5 ∈ t ∧ t.getLast? = some 5) ∧
      ∃ ps, tickPositions dTemp 2 = some ps ∧
        List.Forall₂ (fun i v => dTemp.x.get? i = some v) t ps := by
  obtain ⟨t, ht, hiff, hlast, hmem, hpos⟩ :=
    tick_positions_spec 6 2 (by decide) (by decide)
  obtain ⟨ps, hps, hall⟩ := hpos dTemp (by decide)
  exact ⟨t, ht, ⟨hmem, hlast⟩, ps, hps, hall⟩

/-- C9 counterexample: on the 20-point grid (a table with n = 20 ≤ 50
rows) the initial X window is (0, 19) — exactly the full data range from
the smallest to the largest X value — so the initial window is not, for
every loaded table, different from the full data range. -/
theorem initial_window_full_range_when_small :
    initial_xlim dGrid20 = some (0, 19) ∧
    dGrid20.x.min? = some 0 ∧ dGrid20.x.max? = some 19 :=
  ⟨rfl, xGrid20_min, xGrid20_max⟩
